import Mathlib

/-!
Verification development for the PeerTube "human transcoding settings" plugin.

The repository contains overlapping variants of the same plugin.  The central
variant (source file `src/unnamed/part_000`) compiles plugin settings into VOD
transcoding profiles and encoder priorities through `updateTranscodingProfiles`;
a second variant (second half of `src/src/main.ts`) registers profile builder
callbacks under a single fixed profile name; a third variant (first half of
`src/src/main.ts`) rewrites ffmpeg argument strings inside a transcoding hook
and performs the `%w`/`%h` placeholder substitution.

All definitions below are shallow embeddings of those source functions.
-/

/-! ## Argument tokenizer

Embedding of `parseOptionsString` (part_000 lines 22-25 and main.ts lines
187-191):

    function parseOptionsString (optionsStr) {
      if (!optionsStr) return []
      return optionsStr.match(/([^\s"']+|"([^"]*)"|'([^']*)')+/g) || []
    }

JavaScript `String.match` with a global regex returns the list of full match
texts; the capture groups inside the alternatives are not used, so the
enclosing quote characters remain part of the matched token.  A match is a
maximal run of pieces, where a piece is either a run of characters that are
neither whitespace nor quotes, or a doubly/singly quoted segment (which
requires a closing quote; an unterminated quote fails the piece and scanning
resumes after the failing position).
-/

/-- Character class of the regex `\s` (the whitespace characters relevant to
this development). -/
def isJsSpace (c : Char) : Bool :=
  c == ' ' || c == '\t' || c == '\n' || c == '\r' || c == '\x0b' || c == '\x0c'

/-- Scan for the closing quote `q`: returns the content before the closing
quote and the remainder after it, or `none` when the quote is unterminated. -/
def findClose (q : Char) : List Char → Option (List Char × List Char)
  | [] => none
  | c :: cs =>
    if c == q then some ([], cs)
    else
      match findClose q cs with
      | some (content, rest) => some (c :: content, rest)
      | none => none

/-- Fuelled scanner for the global regex match.  `acc` is the text of the
token currently being built (empty iff no token is in progress).  One unit of
fuel is spent per step and every step consumes at least one input character,
so fuel `s.length` always suffices. -/
def tokAuxF : Nat → List Char → List Char → List String
  | _, acc, [] => if acc.isEmpty then [] else [String.mk acc]
  | 0, acc, _ :: _ => if acc.isEmpty then [] else [String.mk acc]
  | fuel + 1, acc, c :: cs =>
    if isJsSpace c then
      if acc.isEmpty then tokAuxF fuel [] cs
      else String.mk acc :: tokAuxF fuel [] cs
    else if c == '"' || c == '\'' then
      match findClose c cs with
      | some (content, rest) => tokAuxF fuel (acc ++ (c :: content ++ [c])) rest
      | none =>
        if acc.isEmpty then tokAuxF fuel [] cs
        else String.mk acc :: tokAuxF fuel [] cs
    else tokAuxF fuel (acc ++ [c]) cs

/-- Tokenize a character list with the regex semantics above. -/
def tokenizeChars (s : List Char) : List String :=
  tokAuxF s.length [] s

/-- `parseOptionsString` — the argument tokenizer of the plugin. -/
def parseOptionsString (optionsStr : String) : List String :=
  tokenizeChars optionsStr.data

example : parseOptionsString "" = [] := by decide
example : parseOptionsString "-b:a 128k" = ["-b:a", "128k"] := by decide
example :
    parseOptionsString "-vf \"scale=w=1280:h=720\" -preset fast" =
      ["-vf", "\"scale=w=1280:h=720\"", "-preset", "fast"] := by decide

/-! ## Placeholder resolver

Embedding of the substitution in the hook variant (main.ts lines 133-136):

    outputFilters = outputFilters.replace(/%w/g, resolutionWidth.toString())
                                 .replace(/%h/g, resolutionHeight.toString())

`replace` with a global two-character literal pattern scans left to right and
replaces each non-overlapping occurrence; `Number.prototype.toString` renders
a non-negative integer in decimal.
-/

/-- The decimal digit character for `n < 10`. -/
def natDigitChar (n : Nat) : Char :=
  Char.ofNat (48 + n)

/-- Fuelled digit accumulator: the fuel only bounds recursion depth and
`fuel = n` always suffices since `n / 10 < n` for `n > 0`. -/
def natToDecAux : Nat → Nat → List Char → List Char
  | _, 0, acc => acc
  | 0, _ + 1, acc => acc
  | fuel + 1, n + 1, acc =>
    natToDecAux fuel ((n + 1) / 10) (natDigitChar ((n + 1) % 10) :: acc)

/-- Decimal rendering of a natural number (JavaScript `toString` on a
non-negative integer). -/
def natToDec (n : Nat) : List Char :=
  if n = 0 then ['0'] else natToDecAux n n []

example : natToDec 1280 = ['1', '2', '8', '0'] := by decide
example : natToDec 0 = ['0'] := by decide

/-- `s.replace(/%p₁/g, r)` for a two-character pattern `%p₁`: scan left to
right, replacing each non-overlapping occurrence of `'%' :: p₁` with `r`. -/
def replaceTok (p₁ : Char) (r : List Char) : List Char → List Char
  | [] => []
  | [c] => [c]
  | c₀ :: c₁ :: cs =>
    if c₀ == '%' && c₁ == p₁ then r ++ replaceTok p₁ r cs
    else c₀ :: replaceTok p₁ r (c₁ :: cs)

/-- `resolvePlaceholders` — substitutes `%w` with the width and then `%h`
with the height, both rendered in decimal. -/
def resolvePlaceholders (filterStr : String) (width height : Nat) : String :=
  String.mk (replaceTok 'h' (natToDec height)
    (replaceTok 'w' (natToDec width) filterStr.data))

example :
    resolvePlaceholders "-vf \"scale=w=%w:h=%h\"" 1280 720 =
      "-vf \"scale=w=1280:h=720\"" := by decide

/-! ## JavaScript `parseInt(x, 10)`

Embedding of `parseInt(settings['transcode_threads'] as string, 10) || 0`
(part_000 line 40): skip leading whitespace, read an optional sign and the
longest digit prefix; no digit gives `NaN`, which `|| 0` coalesces to `0`.
-/

/-- Numeric value of a digit string (most significant first). -/
def digitsVal (l : List Char) : Nat :=
  l.foldl (fun a c => 10 * a + (c.toNat - 48)) 0

/-- `parseInt(s, 10)`: `none` models `NaN`. -/
def jsParseInt10 (s : String) : Option Int :=
  let cs := s.data.dropWhile (fun c => isJsSpace c)
  let signAndRest : Int × List Char :=
    match cs with
    | '-' :: rest => (-1, rest)
    | '+' :: rest => (1, rest)
    | _ => (1, cs)
  let digits := signAndRest.2.takeWhile Char.isDigit
  if digits.isEmpty then none
  else some (signAndRest.1 * (digitsVal digits : Int))

example : jsParseInt10 "2" = some 2 := by decide
example : jsParseInt10 "" = none := by decide
example : jsParseInt10 " -3x" = some (-3) := by decide

/-! ## Data model

Settings values as read by `updateTranscodingProfiles` (part_000 lines
38-53).  A missing string setting is modelled as the empty string (the code
treats `undefined` and `''` alike through JavaScript falsiness); a missing
boolean is modelled as `false`.
-/

/-- The per-tier settings `resolution_<res>_enabled`, `resolution_<res>_codec`,
`resolution_<res>_input_params`, `resolution_<res>_codec_params`. -/
structure ResolutionSettings where
  enabled : Bool
  codec : String
  inputParams : String
  codecParams : String
deriving DecidableEq

/-- One snapshot of the settings store, as consumed by
`updateTranscodingProfiles`.  `transcodeThreads` is the raw string value of
the `transcode_threads` setting. -/
structure Settings where
  audioCodec : String
  audioParams : String
  transcodeThreads : String
  perTier : String → ResolutionSettings

/-- Kind argument of `addVODEncoderPriority`. -/
inductive EncoderKind
  | video
  | audio
deriving DecidableEq

/-- One `addVODProfile(encoderName, profileName, builder)` registration with
the options the builder produces. -/
structure CompiledProfile where
  encoderName : String
  profileName : String
  inputOptions : List String
  outputOptions : List String
deriving DecidableEq

/-- One `addVODEncoderPriority(kind, encoderName, score)` registration. -/
structure EncoderPriorityEntry where
  kind : EncoderKind
  encoderName : String
  score : Int
deriving DecidableEq

/-- The state held by the external transcoding manager: the registered
profiles and encoder priorities, in registration order. -/
structure ProfileTable where
  profiles : List CompiledProfile
  priorities : List EncoderPriorityEntry
deriving DecidableEq

def emptyTable : ProfileTable := ⟨[], []⟩

/-- The calls `updateTranscodingProfiles` makes on the transcoding manager
and the logger, in program order. -/
inductive ManagerOp
  | removeAll
  | addProfile (p : CompiledProfile)
  | addPriority (e : EncoderPriorityEntry)
  | log (msg : String)
deriving DecidableEq

/-- Effect of one manager call on the manager's state (`log` has none). -/
def applyOp (t : ProfileTable) : ManagerOp → ProfileTable
  | .removeAll => emptyTable
  | .addProfile p => ⟨t.profiles ++ [p], t.priorities⟩
  | .addPriority e => ⟨t.profiles, t.priorities ++ [e]⟩
  | .log _ => t

/-- Run a sequence of manager calls from a starting state. -/
def runOps (t : ProfileTable) (ops : List ManagerOp) : ProfileTable :=
  ops.foldl applyOp t

/-- Every manager state reached while a sequence of calls executes,
starting state included. -/
def statesDuring (t : ProfileTable) : List ManagerOp → List ProfileTable
  | [] => [t]
  | op :: ops => t :: statesDuring (applyOp t op) ops

/-- The profiles a call sequence registers, in order. -/
def opsProfiles (ops : List ManagerOp) : List CompiledProfile :=
  ops.filterMap fun op =>
    match op with
    | .addProfile p => some p
    | _ => none

/-- The priority entries a call sequence registers, in order. -/
def opsPriorities (ops : List ManagerOp) : List EncoderPriorityEntry :=
  ops.filterMap fun op =>
    match op with
    | .addPriority e => some e
    | _ => none

/-! ## The profile compiler (`updateTranscodingProfiles`, part_000 lines 28-80) -/

/-- The fixed tier catalog (part_000 line 37). -/
def resolutions : List String :=
  ["144p", "240p", "360p", "480p", "720p", "1080p", "1440p", "2160p"]

/-- `(settings['audio_codec'] as string) || 'aac'`. -/
def effAudioCodec (s : Settings) : String :=
  if s.audioCodec = "" then "aac" else s.audioCodec

/-- `(settings['audio_params'] as string) || '-b:a 128k'`. -/
def effAudioParams (s : Settings) : String :=
  if s.audioParams = "" then "-b:a 128k" else s.audioParams

/-- `parseInt(settings['transcode_threads'] as string, 10) || 0`. -/
def effThreads (s : Settings) : Int :=
  match jsParseInt10 s.transcodeThreads with
  | none => 0
  | some n => n

/-- `transcodeThreads > 0 ? ['-threads', transcodeThreads.toString()] : []`
(part_000 line 61). -/
def threadParams (threads : Int) : List String :=
  if threads > 0 then ["-threads", toString threads] else []

/-- The body of the per-resolution loop (part_000 lines 45-78): the manager
and logger calls one iteration performs for tier `res` with per-tier settings
`rc`, given the already-resolved global audio codec/params and thread count. -/
def tierOps (audioCodec audioParams : String) (threads : Int)
    (res : String) (rc : ResolutionSettings) : List ManagerOp :=
  if !rc.enabled then
    [.log ("Resolution " ++ res ++ " is disabled, skipping.")]
  else
    let videoCodec := rc.codec
    let inputParamsStr := rc.inputParams
    let codecParamsStr := rc.codecParams
    let profileName :=
      "custom-" ++ res ++ "-" ++ (if videoCodec = "" then "default" else videoCodec)
    if videoCodec = "" then
      [.log ("Video codec for resolution " ++ res ++ " is not defined. Skipping.")]
    else
      [ .addProfile
          ⟨videoCodec, profileName,
            threadParams threads ++ parseOptionsString inputParamsStr,
            parseOptionsString codecParamsStr⟩
      , .addProfile
          ⟨audioCodec, profileName, [], parseOptionsString audioParams⟩
      , .addPriority ⟨.video, videoCodec, 2000⟩
      , .addPriority ⟨.audio, audioCodec, 2000⟩
      , .log ("Registered profile " ++ profileName ++ " for " ++ res ++
          " with video codec " ++ videoCodec ++ ".")
      ]

/-- The loop over the whole tier catalog. -/
def tierOpsAll (s : Settings) : List ManagerOp :=
  resolutions.flatMap fun res =>
    tierOps (effAudioCodec s) (effAudioParams s) (effThreads s) res (s.perTier res)

/-- All manager and logger calls of one `updateTranscodingProfiles` run, in
program order: `removeAllProfilesAndEncoderPriorities()` first (line 35),
then the informational log (line 42), then the per-tier loop (lines 44-79). -/
def updateOps (s : Settings) : List ManagerOp :=
  ManagerOp.removeAll ::
    ManagerOp.log "Updating transcoding profiles based on new settings..." ::
      tierOpsAll s

/-- The manager state after a full `updateTranscodingProfiles` run. -/
def updateTranscodingProfiles (s : Settings) : ProfileTable :=
  runOps emptyTable (updateOps s)

/-! ## Plugin context guards (part_000 lines 9-19, 28-30, 181-187) -/

/-- The module-level `pluginContext`: manager references are `null` until
`register` fills them; `Option Unit` models presence of the reference. -/
structure PluginContext where
  transcodingManager : Option Unit
  settingsManager : Option Unit
  logger : Option Unit

/-- `updateTranscodingProfiles` with its entry guard (part_000 lines 29-30):
`if (!transcodingManager || !logger || !settingsManager) return`. -/
def updateTranscodingProfilesGuarded (ctx : PluginContext) (s : Settings) :
    List ManagerOp :=
  match ctx.transcodingManager, ctx.logger, ctx.settingsManager with
  | some _, some _, some _ => updateOps s
  | _, _, _ => []

/-- `unregister` (part_000 lines 181-187): removes everything only when both
the transcoding manager and the logger references are populated. -/
def unregisterOps (ctx : PluginContext) : List ManagerOp :=
  match ctx.transcodingManager, ctx.logger with
  | some _, some _ =>
    [ ManagerOp.removeAll
    , ManagerOp.log "All custom transcoding profiles have been unregistered."
    ]
  | _, _ => []

/-! ## The fixed-profile-name variant (main.ts lines 264-301)

This variant registers one audio and one video profile under the single name
`human-transcoding`; the builders below are the callbacks passed to
`addVODProfile`, evaluated on the settings they fetch.
-/

/-- Options returned by an `addVODProfile` builder callback. -/
structure ProfileOptions where
  inputOptions : List String
  outputOptions : List String
deriving DecidableEq

/-- The video builder (main.ts lines 285-301): with an empty codec setting it
falls back to `['-c:v', 'libx264', '-crf', '23']`, otherwise it prepends the
codec selector pair to the tokenized codec parameters. -/
def mainVideoProfileBuilder (codec inputParams codecParams : String) :
    ProfileOptions :=
  if codec = "" then ⟨[], ["-c:v", "libx264", "-crf", "23"]⟩
  else ⟨parseOptionsString inputParams,
    ["-c:v", codec] ++ parseOptionsString codecParams⟩

/-- The audio builder (main.ts lines 265-269): just the tokenized
`audio_params`, no codec selector tokens. -/
def mainAudioProfileBuilder (audioParams : String) : ProfileOptions :=
  ⟨[], parseOptionsString audioParams⟩

/-! ## Concrete configurations used as test inputs -/

/-- A disabled tier configuration. -/
def tierOff : ResolutionSettings :=
  ⟨false, "libx264", "", "-crf 23 -preset fast -pix_fmt yuv420p"⟩

/-- Snapshot with only 720p enabled (`libx264`, hardware input flags) and a
thread count of 2. -/
def exSettings1 : Settings :=
  ⟨"aac", "-b:a 128k", "2", fun res =>
    if res = "720p" then ⟨true, "libx264", "-hwaccel auto", "-crf 23"⟩
    else tierOff⟩

example :
    updateTranscodingProfiles exSettings1 =
      ⟨[ ⟨"libx264", "custom-720p-libx264",
           ["-threads", "2", "-hwaccel", "auto"], ["-crf", "23"]⟩
       , ⟨"aac", "custom-720p-libx264", [], ["-b:a", "128k"]⟩ ],
       [ ⟨.video, "libx264", 2000⟩, ⟨.audio, "aac", 2000⟩ ]⟩ := by decide

/-- Snapshot with only 720p enabled but an empty video codec. -/
def exSettings2 : Settings :=
  ⟨"aac", "-b:a 128k", "0", fun res =>
    if res = "720p" then ⟨true, "", "", "-crf 23"⟩ else tierOff⟩

example : updateTranscodingProfiles exSettings2 = ⟨[], []⟩ := by decide

/-- Snapshot with 720p and 1080p enabled, sharing the codec `libx264`. -/
def exSettings5 : Settings :=
  ⟨"aac", "-b:a 128k", "0", fun res =>
    if res = "720p" || res = "1080p" then ⟨true, "libx264", "", "-crf 23"⟩
    else tierOff⟩

example :
    (updateTranscodingProfiles exSettings5).priorities =
      [ ⟨.video, "libx264", 2000⟩, ⟨.audio, "aac", 2000⟩
      , ⟨.video, "libx264", 2000⟩, ⟨.audio, "aac", 2000⟩ ] := by decide

/-! ## Helper lemmas -/

theorem runOps_nil (t : ProfileTable) : runOps t [] = t := rfl

theorem runOps_cons (t : ProfileTable) (op : ManagerOp) (ops : List ManagerOp) :
    runOps t (op :: ops) = runOps (applyOp t op) ops := rfl

/-- Running a `removeAll`-free call sequence appends the registered profiles
and priorities to the current state. -/
theorem runOps_eq_of_no_removeAll (ops : List ManagerOp) (t : ProfileTable)
    (h : ManagerOp.removeAll ∉ ops) :
    runOps t ops =
      ⟨t.profiles ++ opsProfiles ops, t.priorities ++ opsPriorities ops⟩ := by
  induction ops generalizing t with
  | nil => simp [runOps_nil, opsProfiles, opsPriorities]
  | cons op ops ih =>
    simp only [List.mem_cons, not_or] at h
    rw [runOps_cons, ih _ h.2]
    cases op with
    | removeAll => exact absurd rfl h.1
    | addProfile p =>
      simp [applyOp, opsProfiles, opsPriorities, List.filterMap_cons]
    | addPriority e =>
      simp [applyOp, opsProfiles, opsPriorities, List.filterMap_cons]
    | log m =>
      simp [applyOp, opsProfiles, opsPriorities, List.filterMap_cons]

/-- One loop iteration never clears the manager. -/
theorem tierOps_no_removeAll (a p : String) (th : Int) (res : String)
    (rc : ResolutionSettings) : ManagerOp.removeAll ∉ tierOps a p th res rc := by
  simp only [tierOps]
  split
  · simp
  · split <;> simp

/-- The profiles one loop iteration registers. -/
theorem opsProfiles_tierOps (a p : String) (th : Int) (res : String)
    (rc : ResolutionSettings) :
    opsProfiles (tierOps a p th res rc) =
      if rc.enabled = true ∧ rc.codec ≠ "" then
        [ ⟨rc.codec, "custom-" ++ res ++ "-" ++ rc.codec,
            threadParams th ++ parseOptionsString rc.inputParams,
            parseOptionsString rc.codecParams⟩
        , ⟨a, "custom-" ++ res ++ "-" ++ rc.codec, [], parseOptionsString p⟩ ]
      else [] := by
  unfold tierOps
  rcases hE : rc.enabled
  · simp [hE, opsProfiles]
  · rcases hC : rc.codec == "" with _ | _ <;> simp_all [opsProfiles]

/-- The priority entries one loop iteration registers. -/
theorem opsPriorities_tierOps (a p : String) (th : Int) (res : String)
    (rc : ResolutionSettings) :
    opsPriorities (tierOps a p th res rc) =
      if rc.enabled = true ∧ rc.codec ≠ "" then
        [⟨.video, rc.codec, 2000⟩, ⟨.audio, a, 2000⟩]
      else [] := by
  unfold tierOps
  rcases hE : rc.enabled
  · simp [hE, opsPriorities]
  · rcases hC : rc.codec == "" with _ | _ <;> simp_all [opsPriorities]

theorem opsProfiles_flatMap (l : List String) (f : String → List ManagerOp) :
    opsProfiles (l.flatMap f) = l.flatMap fun x => opsProfiles (f x) := by
  induction l with
  | nil => rfl
  | cons x xs ih =>
    simp only [List.flatMap_cons, opsProfiles, List.filterMap_append] at *
    rw [ih]

theorem opsPriorities_flatMap (l : List String) (f : String → List ManagerOp) :
    opsPriorities (l.flatMap f) = l.flatMap fun x => opsPriorities (f x) := by
  induction l with
  | nil => rfl
  | cons x xs ih =>
    simp only [List.flatMap_cons, opsPriorities, List.filterMap_append] at *
    rw [ih]

theorem tierOpsAll_no_removeAll (s : Settings) :
    ManagerOp.removeAll ∉ tierOpsAll s := by
  unfold tierOpsAll
  intro h
  rcases List.mem_flatMap.mp h with ⟨res, _, hmem⟩
  exact tierOps_no_removeAll _ _ _ _ _ hmem

/-- The final manager state of a run collects exactly the per-tier profile
and priority registrations, in loop order. -/
theorem updateTable_eq (s : Settings) :
    updateTranscodingProfiles s =
      ⟨opsProfiles (tierOpsAll s), opsPriorities (tierOpsAll s)⟩ := by
  unfold updateTranscodingProfiles updateOps
  rw [runOps_cons, runOps_cons]
  exact runOps_eq_of_no_removeAll _ _ (tierOpsAll_no_removeAll s)

/-- Every priority entry in the final table stems from an enabled tier with a
non-empty codec, and names either that tier's video codec or the effective
audio codec. -/
theorem priorities_from_enabled (s : Settings) (e : EncoderPriorityEntry)
    (he : e ∈ (updateTranscodingProfiles s).priorities) :
    ∃ res ∈ resolutions, (s.perTier res).enabled = true ∧
      (s.perTier res).codec ≠ "" ∧
      (e.encoderName = (s.perTier res).codec ∨ e.encoderName = effAudioCodec s) := by
  rw [updateTable_eq] at he
  simp only [tierOpsAll, opsPriorities_flatMap] at he
  rcases List.mem_flatMap.mp he with ⟨res, hres, hmem⟩
  rw [opsPriorities_tierOps] at hmem
  refine ⟨res, hres, ?_⟩
  by_cases hcase : (s.perTier res).enabled = true ∧ (s.perTier res).codec ≠ ""
  · rw [if_pos hcase] at hmem
    simp only [List.mem_cons, List.not_mem_nil, or_false] at hmem
    rcases hmem with h | h
    · exact ⟨hcase.1, hcase.2, Or.inl (by rw [h])⟩
    · exact ⟨hcase.1, hcase.2, Or.inr (by rw [h])⟩
  · rw [if_neg hcase] at hmem
    cases hmem

/-- Whitespace-only input tokenizes to the empty vector. -/
theorem tokenizeChars_all_space (s : List Char)
    (h : ∀ c ∈ s, isJsSpace c = true) : tokenizeChars s = [] := by
  induction s with
  | nil => rfl
  | cons c cs ih =>
    have hc : isJsSpace c = true := h c (List.mem_cons_self c cs)
    show tokAuxF (cs.length + 1) [] (c :: cs) = []
    rw [tokAuxF]
    simp only [hc, if_true, List.isEmpty_nil]
    exact ih fun x hx => h x (List.mem_cons_of_mem c hx)

/-- `replaceTok` passes a pattern-free prefix through unchanged. -/
theorem replaceTok_append (p : Char) (r : List Char) (a : List Char)
    (s : List Char) (h : '%' ∉ a) :
    replaceTok p r (a ++ s) = a ++ replaceTok p r s := by
  induction a generalizing s with
  | nil => rfl
  | cons x a ih =>
    simp only [List.mem_cons, not_or] at h
    have hx : ¬x = '%' := fun hEq => h.1 (hEq ▸ rfl)
    cases hrest : a ++ s with
    | nil =>
      rcases List.append_eq_nil.mp hrest with ⟨ha, hs⟩
      subst ha; subst hs
      simp [replaceTok]
    | cons y t =>
      rw [List.cons_append, hrest, replaceTok]
      have hcond : (x == '%' && y == p) = false := by
        simp [hx]
      rw [if_neg (by simp [hcond]), ← hrest, ih s h.2]
      rfl

/-- `replaceTok` leaves a pattern-free string unchanged. -/
theorem replaceTok_noop (p : Char) (r : List Char) (s : List Char)
    (h : '%' ∉ s) : replaceTok p r s = s := by
  have := replaceTok_append p r s [] h
  simpa [replaceTok] using this

/-- `replaceTok` rewrites a pattern occurrence at the head. -/
theorem replaceTok_head (p : Char) (r : List Char) (s : List Char) :
    replaceTok p r ('%' :: p :: s) = r ++ replaceTok p r s := by
  rw [replaceTok]
  simp

/-- Pattern-free fragments joined by the pattern become the same fragments
joined by the replacement: every occurrence is replaced. -/
def joinWith (sep : List Char) : List (List Char) → List Char
  | [] => []
  | [a] => a
  | a :: b :: rest => a ++ sep ++ joinWith sep (b :: rest)

theorem replaceTok_joinWith (p : Char) (r : List Char)
    (parts : List (List Char)) (h : ∀ part ∈ parts, '%' ∉ part) :
    replaceTok p r (joinWith ['%', p] parts) = joinWith r parts := by
  induction parts with
  | nil => rfl
  | cons a rest ih =>
    cases rest with
    | nil =>
      show replaceTok p r (joinWith ['%', p] [a]) = joinWith r [a]
      rw [joinWith, joinWith]
      exact replaceTok_noop p r a (h a (List.mem_cons_self a []))
    | cons b rest' =>
      rw [joinWith, joinWith, List.append_assoc,
        replaceTok_append p r a _ (h a (List.mem_cons_self a _))]
      show a ++ replaceTok p r ('%' :: p :: joinWith ['%', p] (b :: rest')) = _
      rw [replaceTok_head, ih fun x hx => h x (List.mem_cons_of_mem a hx),
        List.append_assoc]

/-- Decimal digit characters are never the `%` marker. -/
theorem natDigitChar_ne_pct (n : Nat) (h : n < 10) : natDigitChar n ≠ '%' := by
  interval_cases n <;> decide

theorem natToDecAux_no_pct (fuel : Nat) :
    ∀ (n : Nat) (acc : List Char), '%' ∉ acc → '%' ∉ natToDecAux fuel n acc := by
  induction fuel with
  | zero =>
    intro n acc h
    cases n <;> simpa [natToDecAux] using h
  | succ f ih =>
    intro n acc h
    cases n with
    | zero => simpa [natToDecAux] using h
    | succ m =>
      rw [natToDecAux]
      refine ih _ _ ?_
      simp only [List.mem_cons, not_or]
      exact ⟨fun hEq =>
        natDigitChar_ne_pct _ (Nat.mod_lt _ (by decide)) hEq.symm, h⟩

/-- The decimal rendering of a natural number never contains `%`. -/
theorem natToDec_no_pct (n : Nat) : '%' ∉ natToDec n := by
  unfold natToDec
  split
  · decide
  · exact natToDecAux_no_pct n n [] (List.not_mem_nil '%')

/-- A pattern-free prefix followed by one occurrence of the pattern. -/
theorem replaceTok_mid (p : Char) (r a s : List Char) (ha : '%' ∉ a) :
    replaceTok p r (a ++ '%' :: p :: s) = a ++ r ++ replaceTok p r s := by
  rw [replaceTok_append p r a _ ha, replaceTok_head, List.append_assoc]

/-- Snapshot with only 720p enabled, using a codec no disabled tier uses. -/
def exSettings3 : Settings :=
  ⟨"aac", "-b:a 128k", "0", fun res =>
    if res = "720p" then ⟨true, "hevc_vaapi", "", "-qp 24"⟩ else tierOff⟩

/-! ## Claims -/

/-- C1 fails on the code: with thread count 2 and 720p enabled
(`libx264`, inputParams `-hwaccel auto`, codecParams `-crf 23`), the video
profile compiled by `updateTranscodingProfiles` puts the thread tokens into
`inputOptions` (not `outputOptions`), emits no `-c:v` selector pair and no
output filters, and `outputOptions` is just the tokenized codecParams. -/
theorem claim1_counterexample :
    (updateTranscodingProfiles exSettings1).profiles =
      [ ⟨"libx264", "custom-720p-libx264",
          ["-threads", "2", "-hwaccel", "auto"], ["-crf", "23"]⟩
      , ⟨"aac", "custom-720p-libx264", [], ["-b:a", "128k"]⟩ ] ∧
    ((updateTranscodingProfiles exSettings1).profiles.map
        CompiledProfile.outputOptions ≠
      [["-threads", "2", "-c:v", "libx264", "-crf", "23"],
        ["-b:a", "128k"]]) ∧
    ((updateTranscodingProfiles exSettings1).profiles.map
        CompiledProfile.inputOptions ≠
      [["-hwaccel", "auto"], []]) := by decide

/-- C1 (amended): for every enabled tier with a non-empty `videoCodec`,
`updateTranscodingProfiles` registers a video profile whose `inputOptions`
is the thread-count tokens (when threadCount > 0) followed by the tokenized
inputParams, and whose `outputOptions` is exactly the tokenized codecParams —
no codec-selector pair and no output filters (this variant has no
outputFilters setting).  The `-c:v` selector pair immediately before the
codecParams tokens exists only in the fixed-profile-name variant's builder
(`main.ts`), whose `inputOptions` is the tokenized inputParams without
thread tokens. -/
theorem claim1_amended (s : Settings) (res : String) (hres : res ∈ resolutions)
    (hE : (s.perTier res).enabled = true) (hC : (s.perTier res).codec ≠ "") :
    (⟨(s.perTier res).codec,
        "custom-" ++ res ++ "-" ++ (s.perTier res).codec,
        threadParams (effThreads s) ++
          parseOptionsString (s.perTier res).inputParams,
        parseOptionsString (s.perTier res).codecParams⟩ : CompiledProfile) ∈
      (updateTranscodingProfiles s).profiles ∧
    mainVideoProfileBuilder (s.perTier res).codec (s.perTier res).inputParams
        (s.perTier res).codecParams =
      ⟨parseOptionsString (s.perTier res).inputParams,
        ["-c:v", (s.perTier res).codec] ++
          parseOptionsString (s.perTier res).codecParams⟩ := by
  constructor
  · rw [updateTable_eq]
    show _ ∈ opsProfiles (tierOpsAll s)
    rw [tierOpsAll, opsProfiles_flatMap]
    refine List.mem_flatMap.mpr ⟨res, hres, ?_⟩
    rw [opsProfiles_tierOps, if_pos ⟨hE, hC⟩]
    exact List.mem_cons_self _ _
  · rw [mainVideoProfileBuilder, if_neg hC]

/-- Witness for C1 (amended) at `exSettings1` and tier 720p. -/
theorem claim1_amended_witness :
    (⟨"libx264", "custom-720p-libx264",
        threadParams (effThreads exSettings1) ++
          parseOptionsString "-hwaccel auto",
        parseOptionsString "-crf 23"⟩ : CompiledProfile) ∈
      (updateTranscodingProfiles exSettings1).profiles ∧
    mainVideoProfileBuilder "libx264" "-hwaccel auto" "-crf 23" =
      ⟨parseOptionsString "-hwaccel auto",
        ["-c:v", "libx264"] ++ parseOptionsString "-crf 23"⟩ :=
  claim1_amended exSettings1 "720p" (by decide) (by decide) (by decide)

/-- C2 fails on the code: with 720p enabled and an empty video codec,
`updateTranscodingProfiles` registers no profile at all for the tier (the
compiled table is empty), emitting only the warning diagnostic — there is no
`libx264`/`-crf 23` fallback profile in this compiler. -/
theorem claim2_counterexample :
    (updateTranscodingProfiles exSettings2).profiles = [] ∧
    ManagerOp.log "Video codec for resolution 720p is not defined. Skipping."
      ∈ updateOps exSettings2 := by decide

/-- C2 (amended): a tier with `enabled == true` and an empty `videoCodec` is
skipped by `updateTranscodingProfiles` with a warning diagnostic and yields
no CompiledProfile; the fixed `libx264`/`-crf 23` fallback exists only in the
fixed-profile-name variant's video builder (`main.ts`), which returns
`['-c:v', 'libx264', '-crf', '23']` when the codec setting is empty. -/
theorem claim2_amended (s : Settings) (res : String) (hres : res ∈ resolutions)
    (hE : (s.perTier res).enabled = true) (hC : (s.perTier res).codec = "") :
    opsProfiles (tierOps (effAudioCodec s) (effAudioParams s) (effThreads s)
        res (s.perTier res)) = [] ∧
    ManagerOp.log ("Video codec for resolution " ++ res ++
        " is not defined. Skipping.") ∈ updateOps s ∧
    (∀ ip cp : String, mainVideoProfileBuilder "" ip cp =
      ⟨[], ["-c:v", "libx264", "-crf", "23"]⟩) := by
  refine ⟨?_, ?_, ?_⟩
  · rw [opsProfiles_tierOps, if_neg (fun h => h.2 hC)]
  · rw [updateOps]
    refine List.mem_cons_of_mem _ (List.mem_cons_of_mem _ ?_)
    rw [tierOpsAll]
    refine List.mem_flatMap.mpr ⟨res, hres, ?_⟩
    rw [tierOps]
    simp [hE, hC]
  · intro ip cp
    rw [mainVideoProfileBuilder, if_pos rfl]

/-- Witness for C2 (amended) at `exSettings2` and tier 720p. -/
theorem claim2_amended_witness :
    opsProfiles (tierOps (effAudioCodec exSettings2) (effAudioParams exSettings2)
        (effThreads exSettings2) "720p" (exSettings2.perTier "720p")) = [] ∧
    ManagerOp.log ("Video codec for resolution " ++ "720p" ++
        " is not defined. Skipping.") ∈ updateOps exSettings2 ∧
    (∀ ip cp : String, mainVideoProfileBuilder "" ip cp =
      ⟨[], ["-c:v", "libx264", "-crf", "23"]⟩) :=
  claim2_amended exSettings2 "720p" (by decide) (by decide) (by decide)

/-- C3: a disabled tier contributes only a skip log — no profile and no
priority entry — and if moreover its video codec is neither any enabled
tier's codec nor the effective audio codec, then no priority entry in the
compiled table carries that codec name. -/
theorem claim3_disabled_exclusion (s : Settings) (res : String)
    (hdis : (s.perTier res).enabled = false)
    (e : EncoderPriorityEntry)
    (he : e ∈ (updateTranscodingProfiles s).priorities)
    (hV : ∀ r ∈ resolutions, (s.perTier r).enabled = true →
      (s.perTier r).codec ≠ (s.perTier res).codec)
    (hA : effAudioCodec s ≠ (s.perTier res).codec) :
    tierOps (effAudioCodec s) (effAudioParams s) (effThreads s) res
        (s.perTier res) =
      [.log ("Resolution " ++ res ++ " is disabled, skipping.")] ∧
    e.encoderName ≠ (s.perTier res).codec := by
  constructor
  · rw [tierOps]
    simp [hdis]
  · obtain ⟨r, hr, hEn, _, hname⟩ := priorities_from_enabled s e he
    rcases hname with hname | hname
    · rw [hname]
      exact hV r hr hEn
    · rw [hname]
      exact hA

/-- Witness for C3 at `exSettings3` (720p enabled with `hevc_vaapi`), the
disabled tier 144p (codec `libx264`) and the video priority entry. -/
theorem claim3_disabled_exclusion_witness :
    tierOps (effAudioCodec exSettings3) (effAudioParams exSettings3)
        (effThreads exSettings3) "144p" (exSettings3.perTier "144p") =
      [.log ("Resolution " ++ "144p" ++ " is disabled, skipping.")] ∧
    (⟨.video, "hevc_vaapi", 2000⟩ : EncoderPriorityEntry).encoderName ≠
      (exSettings3.perTier "144p").codec :=
  claim3_disabled_exclusion exSettings3 "144p" (by decide)
    ⟨.video, "hevc_vaapi", 2000⟩ (by decide) (by decide) (by decide)

/-- C4 fails on the code: the tokenizer groups a quoted run into one token
but keeps the enclosing quote characters (JavaScript `match` with a global
regex returns full match texts, not capture groups), so the claimed value
`["-vf", "scale=w=1280:h=720", "-preset", "fast"]` is not produced. -/
theorem claim4_counterexample :
    parseOptionsString "-vf \"scale=w=1280:h=720\" -preset fast" =
      ["-vf", "\"scale=w=1280:h=720\"", "-preset", "fast"] ∧
    parseOptionsString "-vf \"scale=w=1280:h=720\" -preset fast" ≠
      ["-vf", "scale=w=1280:h=720", "-preset", "fast"] := by decide

/-- C4 (amended): `parseOptionsString` splits on runs of unquoted
whitespace, a quoted run becomes part of exactly one token with the
enclosing quote characters retained, and empty or whitespace-only input
yields the empty vector. -/
theorem claim4_amended :
    parseOptionsString "" = [] ∧
    (∀ s : String, (∀ c ∈ s.data, isJsSpace c = true) →
      parseOptionsString s = []) ∧
    parseOptionsString "-vf \"scale=w=1280:h=720\" -preset fast" =
      ["-vf", "\"scale=w=1280:h=720\"", "-preset", "fast"] ∧
    parseOptionsString
        (String.mk ['a', ' ', '\'', 'b', ' ', 'c', '\'', ' ', 'd']) =
      [String.mk ['a'], String.mk ['\'', 'b', ' ', 'c', '\''],
        String.mk ['d']] :=
  ⟨by decide, fun s h => tokenizeChars_all_space s.data h, by decide, by decide⟩

/-- Witness for C4 (amended): whitespace-only input tokenizes to `[]`. -/
theorem claim4_amended_witness :
    parseOptionsString (String.mk [' ', '\t', ' ']) = [] :=
  claim4_amended.2.1 (String.mk [' ', '\t', ' ']) (by decide)

/-- C5 fails on the code: the priority registrations happen inside the
per-tier loop, one video and one audio entry per enabled tier, so two
enabled tiers sharing `libx264` yield two identical video entries (and the
audio entry is likewise repeated) — not one entry per distinct codec. -/
theorem claim5_counterexample :
    (updateTranscodingProfiles exSettings5).priorities =
      [ ⟨.video, "libx264", 2000⟩, ⟨.audio, "aac", 2000⟩
      , ⟨.video, "libx264", 2000⟩, ⟨.audio, "aac", 2000⟩ ] ∧
    (updateTranscodingProfiles exSettings5).priorities.count
      ⟨.video, "libx264", 2000⟩ = 2 := by decide

/-- C5 (amended): for every tier, in catalog order, the compiled table holds
one video priority entry for the tier's codec and one audio entry for the
effective audio codec — score 2000 each — whenever the tier is enabled with a
non-empty codec; codecs shared between enabled tiers therefore appear once
per such tier, not deduplicated in first-seen order. -/
theorem claim5_amended (s : Settings) :
    (updateTranscodingProfiles s).priorities =
      resolutions.flatMap fun res =>
        if (s.perTier res).enabled = true ∧ (s.perTier res).codec ≠ "" then
          [⟨.video, (s.perTier res).codec, 2000⟩,
            ⟨.audio, effAudioCodec s, 2000⟩]
        else [] := by
  rw [updateTable_eq]
  show opsPriorities (tierOpsAll s) = _
  rw [tierOpsAll, opsPriorities_flatMap]
  simp only [opsPriorities_tierOps]

/-- C6 fails on the code: the audio CompiledProfile of an enabled tier has
`outputOptions` equal to exactly the tokenized `audioParams`; no audio
codec-selector token pair is inserted (the codec name appears only as the
profile's `encoderName`). -/
theorem claim6_counterexample :
    (updateTranscodingProfiles exSettings1).profiles[1]? =
      some ⟨"aac", "custom-720p-libx264", [], ["-b:a", "128k"]⟩ ∧
    (updateTranscodingProfiles exSettings1).profiles[1]? ≠
      some ⟨"aac", "custom-720p-libx264", [],
        ["-c:a", "aac", "-b:a", "128k"]⟩ := by decide

/-- C6 (amended): every enabled tier with a non-empty video codec also gets
exactly one audio CompiledProfile sharing the tier's profile name, with
empty `inputOptions` and `outputOptions` equal to the tokenized global
audioParams only — no codec-selector tokens; the fixed-profile-name
variant's audio builder (`main.ts`) likewise returns just the tokenized
`audio_params`. -/
theorem claim6_amended (s : Settings) (res : String) (hres : res ∈ resolutions)
    (hE : (s.perTier res).enabled = true) (hC : (s.perTier res).codec ≠ "") :
    (⟨effAudioCodec s, "custom-" ++ res ++ "-" ++ (s.perTier res).codec, [],
        parseOptionsString (effAudioParams s)⟩ : CompiledProfile) ∈
      (updateTranscodingProfiles s).profiles ∧
    (∀ p : String, mainAudioProfileBuilder p = ⟨[], parseOptionsString p⟩) := by
  constructor
  · rw [updateTable_eq]
    show _ ∈ opsProfiles (tierOpsAll s)
    rw [tierOpsAll, opsProfiles_flatMap]
    refine List.mem_flatMap.mpr ⟨res, hres, ?_⟩
    rw [opsProfiles_tierOps, if_pos ⟨hE, hC⟩]
    exact List.mem_cons_of_mem _ (List.mem_cons_self _ _)
  · intro p
    rfl

/-- Witness for C6 (amended) at `exSettings1` and tier 720p. -/
theorem claim6_amended_witness :
    (⟨effAudioCodec exSettings1, "custom-720p-libx264", [],
        parseOptionsString (effAudioParams exSettings1)⟩ : CompiledProfile) ∈
      (updateTranscodingProfiles exSettings1).profiles ∧
    (∀ p : String, mainAudioProfileBuilder p = ⟨[], parseOptionsString p⟩) :=
  claim6_amended exSettings1 "720p" (by decide) (by decide) (by decide)

/-- C7: compilation is deterministic — the same snapshot always produces the
same manager call sequence and field-for-field identical tables (the
compiler is a pure function of the snapshot, iterating the fixed tier list
in a fixed order). -/
theorem claim7_determinism (s₁ s₂ : Settings) (h : s₁ = s₂) :
    updateOps s₁ = updateOps s₂ ∧
    updateTranscodingProfiles s₁ = updateTranscodingProfiles s₂ ∧
    (updateTranscodingProfiles s₁).profiles =
      (updateTranscodingProfiles s₂).profiles ∧
    (updateTranscodingProfiles s₁).priorities =
      (updateTranscodingProfiles s₂).priorities := by
  subst h
  exact ⟨rfl, rfl, rfl, rfl⟩

/-- Witness for C7 at `exSettings1`. -/
theorem claim7_determinism_witness :
    updateOps exSettings1 = updateOps exSettings1 ∧
    updateTranscodingProfiles exSettings1 = updateTranscodingProfiles exSettings1 ∧
    (updateTranscodingProfiles exSettings1).profiles =
      (updateTranscodingProfiles exSettings1).profiles ∧
    (updateTranscodingProfiles exSettings1).priorities =
      (updateTranscodingProfiles exSettings1).priorities :=
  claim7_determinism exSettings1 exSettings1 rfl

/-- A table registered by a previous reload, used as the pre-reload state. -/
def oldTable : ProfileTable :=
  ⟨[⟨"hevc_vaapi", "custom-720p-hevc_vaapi", [], ["-qp", "24"]⟩],
    [⟨.video, "hevc_vaapi", 2000⟩, ⟨.audio, "aac", 2000⟩]⟩

/-- C8 fails on the code: a reload first calls
`removeAllProfilesAndEncoderPriorities()` and then re-adds profiles and
priorities one call at a time, so the sequence of manager states passes
through the empty registry — a state that is neither the old table nor the
new one.  The replacement is a field-by-field rebuild, not a single atomic
reference swap. -/
theorem claim8_counterexample :
    emptyTable ∈ statesDuring oldTable (updateOps exSettings1) ∧
    emptyTable ≠ oldTable ∧
    emptyTable ≠ updateTranscodingProfiles exSettings1 := by decide

/-- C8 (amended): every reload starts with
`removeAllProfilesAndEncoderPriorities()`, so from any previous manager
state the second state of the reload trace is the empty registry, after
which the new entries are appended one call at a time; the final state is
the freshly compiled table regardless of the previous one.  Atomicity of
the visible swap is not established by the plugin itself — it would rely on
the host's run-to-completion scheduling. -/
theorem claim8_amended (s : Settings) (t : ProfileTable) :
    (updateOps s).take 1 = [ManagerOp.removeAll] ∧
    (statesDuring t (updateOps s)).take 2 = [t, emptyTable] ∧
    runOps t (updateOps s) = updateTranscodingProfiles s :=
  ⟨rfl, rfl, rfl⟩

/-- C9: `resolvePlaceholders` substitutes every occurrence of the literal
`%w` by the decimal width and every occurrence of `%h` by the decimal
height, as plain text substitution: shown on the spec's example, on an
arbitrary string with one occurrence of each placeholder, and — for every
number of occurrences — on fragments joined by the placeholder. -/
theorem claim9_placeholders :
    resolvePlaceholders "-vf \"scale=w=%w:h=%h\"" 1280 720 =
      "-vf \"scale=w=1280:h=720\"" ∧
    (∀ (a b c : List Char) (w h : Nat), '%' ∉ a → '%' ∉ b → '%' ∉ c →
      resolvePlaceholders
          (String.mk (a ++ ['%', 'w'] ++ b ++ ['%', 'h'] ++ c)) w h =
        String.mk (a ++ natToDec w ++ b ++ natToDec h ++ c)) ∧
    (∀ (parts : List (List Char)) (w : Nat), (∀ part ∈ parts, '%' ∉ part) →
      replaceTok 'w' (natToDec w) (joinWith ['%', 'w'] parts) =
        joinWith (natToDec w) parts) := by
  refine ⟨by decide, ?_, fun parts w h => replaceTok_joinWith 'w' _ parts h⟩
  intro a b c w h ha hb hc
  show String.mk (replaceTok 'h' (natToDec h) (replaceTok 'w' (natToDec w)
    (a ++ ['%', 'w'] ++ b ++ ['%', 'h'] ++ c))) = _
  have hmid : replaceTok 'w' (natToDec w) ('%' :: 'h' :: c) = '%' :: 'h' :: c := by
    rw [replaceTok]
    rw [if_neg (by decide)]
    rw [show ('h' :: c) = ['h'] ++ c from rfl,
      replaceTok_append 'w' (natToDec w) ['h'] c (by decide),
      replaceTok_noop 'w' (natToDec w) c hc]
  have h1 : replaceTok 'w' (natToDec w)
      (a ++ ['%', 'w'] ++ b ++ ['%', 'h'] ++ c) =
      a ++ natToDec w ++ b ++ ['%', 'h'] ++ c := by
    have hsh : a ++ ['%', 'w'] ++ b ++ ['%', 'h'] ++ c =
        a ++ '%' :: 'w' :: (b ++ '%' :: 'h' :: c) := by simp
    rw [hsh, replaceTok_mid 'w' (natToDec w) a _ ha,
      replaceTok_append 'w' (natToDec w) b _ hb, hmid]
    simp
  have h2 : replaceTok 'h' (natToDec h)
      (a ++ natToDec w ++ b ++ ['%', 'h'] ++ c) =
      a ++ natToDec w ++ b ++ natToDec h ++ c := by
    have hsh : a ++ natToDec w ++ b ++ ['%', 'h'] ++ c =
        (a ++ natToDec w ++ b) ++ '%' :: 'h' :: c := by simp
    have hfree : '%' ∉ a ++ natToDec w ++ b := by
      simp only [List.mem_append, not_or]
      exact ⟨⟨ha, natToDec_no_pct w⟩, hb⟩
    rw [hsh, replaceTok_mid 'h' (natToDec h) _ c hfree,
      replaceTok_noop 'h' (natToDec h) c hc]
  rw [h1, h2]

/-- Witness for C9 on a concrete decomposition. -/
theorem claim9_placeholders_witness :
    resolvePlaceholders
        (String.mk (['x'] ++ ['%', 'w'] ++ [':'] ++ ['%', 'h'] ++ [])) 12 7 =
      String.mk (['x'] ++ natToDec 12 ++ [':'] ++ natToDec 7 ++ []) :=
  claim9_placeholders.2.1 ['x'] [':'] [] 12 7 (by decide) (by decide) (by decide)

/-- C10: before `register` populates the plugin context, both the reload
path and `unregister` are guarded — with any manager reference still null
they perform no manager call at all (and, being total functions of the
context, cannot throw). -/
theorem claim10_guards (ctx : PluginContext) (s : Settings) :
    (ctx.transcodingManager = none ∨ ctx.logger = none ∨
        ctx.settingsManager = none →
      updateTranscodingProfilesGuarded ctx s = []) ∧
    (ctx.transcodingManager = none ∨ ctx.logger = none →
      unregisterOps ctx = []) := by
  obtain ⟨tm, sm, lg⟩ := ctx
  constructor
  · intro h
    cases tm <;> cases lg <;> cases sm <;>
      simp_all [updateTranscodingProfilesGuarded]
  · intro h
    cases tm <;> cases lg <;> simp_all [unregisterOps]

/-- Witness for C10 with an unpopulated transcoding manager reference. -/
theorem claim10_guards_witness :
    updateTranscodingProfilesGuarded ⟨none, some (), some ()⟩ exSettings1 = [] ∧
    unregisterOps ⟨none, some (), some ()⟩ = [] :=
  ⟨(claim10_guards ⟨none, some (), some ()⟩ exSettings1).1 (Or.inl rfl),
    (claim10_guards ⟨none, some (), some ()⟩ exSettings1).2 (Or.inl rfl)⟩
